import Mathlib

/-!
Shallow embedding of the EEG visualization pipeline of
`src/backend/python/brainwave_visualizer.py` and of the board-connection
logic of `src/backend/python/openbci_bridge.py`.

Python floats are modelled by exact rationals (`ℚ`); the single
square root taken by the quality estimator lands in `ℝ`.  External
library calls (scipy's bandpass core, numpy's FFT) are modelled as
opaque function parameters, since their bodies are not part of this
repository; every branch and guard surrounding them is translated
directly from the source.
-/

namespace BrainViz

/-- Arithmetic mean of a list of rationals, `np.mean`; division by zero
yields 0 (the guards in the source keep lists nonempty where it matters). -/
def meanQ (xs : List ℚ) : ℚ := xs.sum / xs.length

/-- Mean of squares, `np.mean(np.square(data))`. -/
def meanSq (xs : List ℚ) : ℚ := meanQ (xs.map fun x => x * x)

/-- Population variance, `np.var(data)`. -/
def varQ (xs : List ℚ) : ℚ := meanQ (xs.map fun x => (x - meanQ xs) * (x - meanQ xs))

/-- `analyze_signal` (brainwave_visualizer.py lines 293-312): windows of
fewer than 10 samples return the zero triple; otherwise
RMS = sqrt(mean(data²)), rail percentage = 100·#{|x| > 0.95·scale}/len,
variance = population variance.  `scale` models the module global
`VERTICAL_SCALE`. -/
noncomputable def analyze_signal (scale : ℚ) (channel_data : List ℚ) : ℝ × ℚ × ℚ :=
  if channel_data.length < 10 then (0, 0, 0)
  else
    let rms : ℝ := Real.sqrt (meanSq channel_data : ℚ)
    let rail_threshold : ℚ := scale * (95 / 100)
    let railed_samples : ℕ := (channel_data.filter fun x => rail_threshold < |x|).length
    let rail_percentage : ℚ :=
      if 0 < channel_data.length then 100 * railed_samples / channel_data.length else 0
    let variance : ℚ := varQ channel_data
    (rms, rail_percentage, variance)

/-- `calculate_fft` (lines 157-174): with fewer than `fs // 2` samples it
returns a pair of zero-filled arrays of length `fs // 2`; otherwise it
defers to the numpy FFT pipeline, modelled by the opaque parameter
`spectrum` (Hamming window, `rfft` magnitude / n, frequency mask). -/
def calculate_fft (spectrum : List ℚ → List ℚ × List ℚ) (fs : ℕ) (data : List ℚ) :
    List ℚ × List ℚ :=
  if data.length < fs / 2 then (List.replicate (fs / 2) 0, List.replicate (fs / 2) 0)
  else spectrum data

/-- The per-channel sliding-window extraction of `update_plot`
(lines 333-357): a buffered sample `(timestamp, values)` contributes the
pair `(timestamp - now, values[ch])` exactly when `timestamp ≥ now - win`
and `ch < min nCh (len values)`.  `nCh` models the global
`channel_count`, `win` the global `TIME_WINDOW`. -/
def channelWindow (now win : ℚ) (nCh ch : ℕ) (buf : List (ℚ × List ℚ)) : List (ℚ × ℚ) :=
  buf.filterMap fun s =>
    if now - win ≤ s.1 ∧ ch < min nCh s.2.length then some (s.1 - now, s.2.getD ch 0)
    else none

/-- The raw railed ratio of a frame, `100 * rail_counts[ch]['count'] /
rail_counts[ch]['total']` (line 393). -/
def railCurrent (count total : ℕ) : ℚ := 100 * count / total

/-- The decayed rail-percentage update of `update_plot` (lines 391-394):
when the frame saw at least one sample for the channel, the stored value
becomes `0.7 * old + 0.3 * current`; otherwise it is left unchanged. -/
def updateRail (old : ℚ) (count total : ℕ) : ℚ :=
  if 0 < total then 7 / 10 * old + 3 / 10 * railCurrent count total else old

/-- Number of railed samples among a frame's window values
(lines 354-357): those with `|val| > 0.95 * scale`. -/
def railCount (scale : ℚ) (values : List ℚ) : ℕ :=
  (values.filter fun v => scale * (95 / 100) < |v|).length

/-- The decayed rail-percentage of a channel after a sequence of frames,
each frame given by the channel's window values, starting from the
initial value 0 (`railed_percentages = [0] * 16`, line 77). -/
def railAfter (scale : ℚ) (frames : List (List ℚ)) : ℚ :=
  frames.foldl (fun old values => updateRail old (railCount scale values) values.length) 0

/-- Zero-padded indexed access into a list, the boundary convention of
`np.convolve(..., mode='same')`. -/
def getPad (xs : List ℚ) (i : ℤ) : ℚ :=
  if 0 ≤ i ∧ i.toNat < xs.length then xs.getD i.toNat 0 else 0

/-- The display smoothing of `update_plot` (lines 377-382):
`np.convolve(filtered_values, np.ones(5)/5, mode='same')`, a symmetric
moving average of window size 5 with zero padding at the ends. -/
def movingAvg5 (xs : List ℚ) : List ℚ :=
  (List.range xs.length).map fun i =>
    (getPad xs (i - 2) + getPad xs (i - 1) + getPad xs i +
      getPad xs (i + 1) + getPad xs (i + 2)) / 5

/-- `apply_bandpass` (lines 136-154): returns the data unchanged when the
filter toggle is off or the window has fewer than 10 samples; otherwise
applies the scipy Butterworth bandpass, modelled by the opaque parameter
`core` (equal to the identity when scipy is unavailable). -/
def apply_bandpass (core : List ℚ → List ℚ) (filter_enabled : Bool) (data : List ℚ) :
    List ℚ :=
  if filter_enabled = false ∨ data.length < 10 then data else core data

/-- The per-channel outputs of one `update_plot` frame that the claims
are about: the displayed trace and the quality metrics. -/
structure ChannelFrame where
  display : List ℚ
  rms : ℝ
  railPct : ℚ
  variance : ℚ
  newRail : ℚ

/-- The per-channel body of `update_plot` (lines 343-394): extract the
channel window; optionally bandpass-filter (lines 370-374) and then
smooth (lines 376-382) the values for display; compute quality metrics
by `analyze_signal` on the unsmoothed values (line 389); fold the frame's
raw railed ratio into the decayed rail-percentage (lines 391-394). -/
noncomputable def frameChannel (core : List ℚ → List ℚ) (filter_enabled smoothing_enabled : Bool)
    (scale now win : ℚ) (nCh ch : ℕ) (buf : List (ℚ × List ℚ)) (oldRail : ℚ) :
    ChannelFrame :=
  let values := (channelWindow now win nCh ch buf).map Prod.snd
  let filtered_values :=
    if filter_enabled = true ∧ 10 < values.length then apply_bandpass core filter_enabled values
    else values
  let smoothed_values :=
    if smoothing_enabled = true ∧ 3 < filtered_values.length then movingAvg5 filtered_values
    else filtered_values
  let m := analyze_signal scale values
  let newRail := updateRail oldRail (railCount scale values) values.length
  ⟨smoothed_values, m.1, m.2.1, m.2.2, newRail⟩

/-! ## Transport adapter: board connection (`openbci_bridge.py`) -/

/-- The two hardware configurations tried by the bridge. -/
inductive BoardId where
  | cytonDaisy : BoardId
  | cyton : BoardId
deriving DecidableEq

/-- The JSON result record printed by a bridge operation: a status tag, a
message, and (on success) the connected board type. -/
structure ConnResult where
  status : String
  message : String
  board_type : Option String
deriving DecidableEq

/-- `init_board` (openbci_bridge.py lines 39-119).  The outcome of
`BoardShim(board_id, params).prepare_session()` for each configuration is
the opaque parameter `prep` (the acquisition library is external): the
bridge tries Cyton+Daisy first, on failure tries Cyton, and when both
fail the raised combined error is caught by the outer handler and
returned as an error record whose message concatenates both errors. -/
def init_board (brainflowAvailable : Bool) (prep : BoardId → Except String Unit) :
    ConnResult :=
  if brainflowAvailable = false then
    ⟨"error", "BrainFlow library not available", none⟩
  else
    match prep .cytonDaisy with
    | .ok _ => ⟨"success", "Cyton+Daisy board connected successfully", some "cyton_daisy"⟩
    | .error e1 =>
      match prep .cyton with
      | .ok _ => ⟨"success", "Cyton board connected successfully", some "cyton"⟩
      | .error e2 =>
        ⟨"error", "Could not connect to either board type: " ++ e1 ++ ", " ++ e2, none⟩

/-! ## Ingest adapter (`read_data_from_stdin`, `process_csv`)

The stdin reader tries `json.loads` on each stripped line and appends
`(time.time(), data)` on success; on a JSON decode error it falls back to
a comma-delimited row of at least 17 fields, appending
`(float(field0), [float(field1) ... float(field16)])`, and silently drops
the line when any of that fails.  The CSV replay reader uses only the
delimited fallback.  `json.loads` and `float` are Python standard
library; they are modelled below by a total recursive-descent JSON
parser and a numeric-literal reader covering the core grammar (optional
sign, digits with at most one dot, optional exponent; `\uXXXX` string
escapes and the `inf`/`nan` spellings of `float` are not modelled —
no claim depends on them). -/

/-- Skip JSON/`float` leading whitespace. -/
def skipWs : List Char → List Char
  | [] => []
  | c :: rest =>
    if c = ' ' ∨ c = '\t' ∨ c = '\n' ∨ c = '\r' then skipWs rest else c :: rest

/-- Split a character list into its longest digit run and the remainder. -/
def spanDigits : List Char → List Char × List Char
  | [] => ([], [])
  | c :: rest =>
    if c.isDigit then
      let p := spanDigits rest
      (c :: p.1, p.2)
    else ([], c :: rest)

/-- Value of a digit run. -/
def digitsToNat (ds : List Char) : ℕ :=
  ds.foldl (fun n c => 10 * n + (c.toNat - 48)) 0

/-- Lex one numeric literal (sign, integer part, optional fraction,
optional exponent); returns its exact rational value and the rest. -/
def numToken (cs : List Char) : Option (ℚ × List Char) :=
  let p1 : ℚ × List Char :=
    match cs with
    | '-' :: r => (-1, r)
    | '+' :: r => (1, r)
    | _ => (1, cs)
  let sgn := p1.1
  let p2 := spanDigits p1.2
  let ip := p2.1
  let p3 : List Char × List Char :=
    match p2.2 with
    | '.' :: r => spanDigits r
    | _ => ([], p2.2)
  let fp := p3.1
  if ip = [] ∧ fp = [] then none
  else
    let mantissa : ℚ := sgn * ((digitsToNat ip : ℚ) + (digitsToNat fp : ℚ) / 10 ^ fp.length)
    match p3.2 with
    | 'e' :: r =>
      let q1 : Bool × List Char :=
        match r with
        | '-' :: r2 => (true, r2)
        | '+' :: r2 => (false, r2)
        | _ => (false, r)
      let q2 := spanDigits q1.2
      if q2.1 = [] then none
      else
        let e : ℤ := if q1.1 then -(digitsToNat q2.1 : ℤ) else (digitsToNat q2.1 : ℤ)
        some (mantissa * (10 : ℚ) ^ e, q2.2)
    | 'E' :: r =>
      let q1 : Bool × List Char :=
        match r with
        | '-' :: r2 => (true, r2)
        | '+' :: r2 => (false, r2)
        | _ => (false, r)
      let q2 := spanDigits q1.2
      if q2.1 = [] then none
      else
        let e : ℤ := if q1.1 then -(digitsToNat q2.1 : ℤ) else (digitsToNat q2.1 : ℤ)
        some (mantissa * (10 : ℚ) ^ e, q2.2)
    | rest => some (mantissa, rest)

/-- Python `float(s)`: the numeric literal with surrounding whitespace,
consuming the whole string. -/
def parseNum? (s : String) : Option ℚ :=
  match numToken (skipWs s.data) with
  | some (q, rest) => if skipWs rest = [] then some q else none
  | none => none

/-- JSON values as produced by `json.loads`. -/
inductive Json where
  | null : Json
  | bool (b : Bool) : Json
  | num (q : ℚ) : Json
  | str (s : String) : Json
  | arr (elems : List Json) : Json
  | obj (members : List (String × Json)) : Json

/-- Lex a JSON string body after the opening quote, handling one-character
escapes; returns the content and the rest after the closing quote. -/
def strToken : List Char → Option (List Char × List Char)
  | [] => none
  | '"' :: rest => some ([], rest)
  | '\\' :: c :: rest =>
    let esc : Option Char :=
      if c = '"' then some '"'
      else if c = '\\' then some '\\'
      else if c = '/' then some '/'
      else if c = 'n' then some '\n'
      else if c = 't' then some '\t'
      else if c = 'r' then some '\r'
      else if c = 'b' then some (Char.ofNat 8)
      else if c = 'f' then some (Char.ofNat 12)
      else none
    match esc with
    | some e => (strToken rest).map fun p => (e :: p.1, p.2)
    | none => none
  | c :: rest => (strToken rest).map fun p => (c :: p.1, p.2)

mutual

/-- Parse one JSON value (fuel-indexed recursive descent). -/
def parseVal : ℕ → List Char → Option (Json × List Char)
  | 0, _ => none
  | fuel + 1, cs =>
    match skipWs cs with
    | 'n' :: 'u' :: 'l' :: 'l' :: rest => some (.null, rest)
    | 't' :: 'r' :: 'u' :: 'e' :: rest => some (.bool true, rest)
    | 'f' :: 'a' :: 'l' :: 's' :: 'e' :: rest => some (.bool false, rest)
    | '"' :: rest => (strToken rest).map fun p => (.str (String.mk p.1), p.2)
    | '[' :: rest =>
      match skipWs rest with
      | ']' :: r2 => some (.arr [], r2)
      | cs2 => (parseElems fuel cs2).map fun p => (.arr p.1, p.2)
    | '{' :: rest =>
      match skipWs rest with
      | '}' :: r2 => some (.obj [], r2)
      | cs2 => (parseMembers fuel cs2).map fun p => (.obj p.1, p.2)
    | cs1 => (numToken cs1).map fun p => (.num p.1, p.2)

/-- Parse the comma-separated elements of a nonempty JSON array, up to and
including the closing bracket. -/
def parseElems : ℕ → List Char → Option (List Json × List Char)
  | 0, _ => none
  | fuel + 1, cs =>
    match parseVal fuel cs with
    | none => none
    | some (v, rest) =>
      match skipWs rest with
      | ',' :: r2 => (parseElems fuel r2).map fun p => (v :: p.1, p.2)
      | ']' :: r2 => some ([v], r2)
      | _ => none

/-- Parse the members of a nonempty JSON object, up to and including the
closing brace. -/
def parseMembers : ℕ → List Char → Option (List (String × Json) × List Char)
  | 0, _ => none
  | fuel + 1, cs =>
    match skipWs cs with
    | '"' :: rest =>
      match strToken rest with
      | none => none
      | some (k, r1) =>
        match skipWs r1 with
        | ':' :: r2 =>
          match parseVal fuel r2 with
          | none => none
          | some (v, r3) =>
            match skipWs r3 with
            | ',' :: r4 => (parseMembers fuel r4).map fun p => ((String.mk k, v) :: p.1, p.2)
            | '}' :: r4 => some ([(String.mk k, v)], r4)
            | _ => none
        | _ => none
    | _ => none

end

/-- `json.loads(line)`: one JSON value consuming the whole line. -/
def jsonParse? (s : String) : Option Json :=
  match parseVal (2 * s.length + 2) s.data with
  | some (v, rest) => if skipWs rest = [] then some v else none
  | none => none

/-- The delimited fallback shared by both readers (lines 202-211 and
275-281): at least 17 fields, timestamp from field 0, exactly the 16
values of fields 1-16 (`csv_data[1:17]`); any `float` failure drops the
line. -/
def decodeFields (fields : List String) : Option (ℚ × List ℚ) :=
  if 17 ≤ fields.length then
    match parseNum? (fields.getD 0 ""), ((fields.drop 1).take 16).mapM parseNum? with
    | some t, some vs => some (t, vs)
    | _, _ => none
  else none

/-- Split a character list at commas (accumulator holds the current
field reversed). -/
def splitCommaAux : List Char → List Char → List (List Char)
  | [], acc => [acc.reverse]
  | c :: rest, acc =>
    if c = ',' then acc.reverse :: splitCommaAux rest []
    else splitCommaAux rest (c :: acc)

/-- The field splitting performed by `csv.reader` on one line: on a
quote-free line (the only kind the spec's protocol produces) this is a
split at commas. -/
def splitComma (s : String) : List String :=
  (splitCommaAux s.data []).map String.mk

/-- One line of the CSV replay reader `process_csv` (lines 275-281). -/
def decodeCsvLine (line : String) : Option (ℚ × List ℚ) :=
  decodeFields (splitComma line)

/-- What one accepted line appends to the buffer: the parsed JSON value
(stored verbatim by the stdin reader) or a decoded 16-value row. -/
inductive Ingest where
  | json (v : Json) : Ingest
  | row (values : List ℚ) : Ingest

/-- One line of the stdin reader `read_data_from_stdin` (lines 193-233;
the Windows and Unix branches decode identically): JSON first, stamped
with the arrival time `now`; on JSON failure the delimited fallback;
otherwise the line is dropped. -/
def decodeStdinLine (now : ℚ) (line : String) : Option (ℚ × Ingest) :=
  match jsonParse? line with
  | some v => some (now, .json v)
  | none => (decodeCsvLine line).map fun p => (p.1, .row p.2)

/-- Feeding a sequence of lines to the stdin reader: the buffer receives
one Sample per accepted line, in order. -/
def ingestLines (now : ℚ) (ls : List String) : List (ℚ × Ingest) :=
  ls.filterMap (decodeStdinLine now)

/-- The structured test line of the spec's end-to-end property. -/
def jsonTestLine : String := "\x7b\"ch\":[1,2]\x7d"

/-- The 17-field delimited test line of the spec's end-to-end property. -/
def rowTestLine : String := "1690000000.0,1,2,3,4,5,6,7,8,9,10,11,12,13,14,15,16"

/-- A line with 17 delimited fields none of which is numeric. -/
def badRowLine : String := "a,b,c,d,e,f,g,h,i,j,k,l,m,n,o,p,q"

/-- A delimited line with 18 fields: a timestamp, 16 channel values and
one extra field. -/
def wideRowLine : String := "1.5,1,2,3,4,5,6,7,8,9,10,11,12,13,14,15,16,99"

end BrainViz

open BrainViz

/-! ## Theorems -/

/-- C1 (counterexample): the window selection of `update_plot` has no
upper cutoff, so a buffered sample whose timestamp lies strictly in the
future of `now` is selected and its relative timestamp is positive:
with `now = 0`, `window_length = 5` and a single buffered sample at
timestamp 1, the returned relative timestamp is 1 > 0. -/
theorem window_rel_time_cex :
    ¬ (∀ p ∈ channelWindow 0 5 16 0 [((1 : ℚ), [0])], -5 ≤ p.1 ∧ p.1 ≤ 0) := by
  intro h
  have hmem : ((1 : ℚ), (0 : ℚ)) ∈ channelWindow 0 5 16 0 [((1 : ℚ), [0])] := by
    simp only [channelWindow, List.mem_filterMap]
    refine ⟨((1 : ℚ), [0]), by simp, ?_⟩
    rw [if_pos ⟨by norm_num, by simp⟩]
    norm_num
  have hle := (h _ hmem).2
  norm_num at hle

/-- C1 (amended): every relative timestamp returned by the Channel
window extraction is at least `-window_length`; it is moreover at most 0
provided every buffered timestamp is at most `now` (the code filters only
from below, so samples timestamped after `now` yield positive relative
timestamps). -/
theorem window_rel_time_bounds (now win : ℚ) (nCh ch : ℕ) (buf : List (ℚ × List ℚ)) :
    ∀ p ∈ channelWindow now win nCh ch buf,
      -win ≤ p.1 ∧ ((∀ s ∈ buf, s.1 ≤ now) → p.1 ≤ 0) := by
  intro p hp
  simp only [channelWindow, List.mem_filterMap] at hp
  obtain ⟨s, hs, hsel⟩ := hp
  by_cases hc : now - win ≤ s.1 ∧ ch < min nCh s.2.length
  · rw [if_pos hc] at hsel
    obtain rfl : (s.1 - now, s.2.getD ch 0) = p := Option.some.inj hsel
    refine ⟨by simpa using hc.1, fun hall => ?_⟩
    have := hall s hs
    simpa using this
  · rw [if_neg hc] at hsel
    exact absurd hsel (by simp)

/-- Witness for C1 (amended): a sample at timestamp −1 with `now = 0`,
`window_length = 5` gets relative timestamp −1 ∈ [−5, 0]. -/
theorem window_rel_time_bounds_witness : -5 ≤ (-1 : ℚ) ∧ (-1 : ℚ) ≤ 0 := by
  have hmem : ((-1 : ℚ), (3 : ℚ)) ∈ channelWindow 0 5 16 0 [((-1 : ℚ), [3])] := by
    simp only [channelWindow, List.mem_filterMap]
    refine ⟨((-1 : ℚ), [3]), by simp, ?_⟩
    rw [if_pos ⟨by norm_num, by simp⟩]
    norm_num
  have h := window_rel_time_bounds 0 5 16 0 [((-1 : ℚ), [3])] ((-1 : ℚ), (3 : ℚ)) hmem
  exact ⟨h.1, h.2 (by norm_num)⟩

/-- C2: one frame of `update_plot` run twice on the same buffer, the two
runs differing only in the filtering/smoothing toggles, produces the same
quality metrics (RMS, rail-percentage, variance) and the same decayed
rail-percentage update: the toggles reach only the displayed trace. -/
theorem metrics_toggle_invariant (core : List ℚ → List ℚ) (f1 s1 f2 s2 : Bool)
    (scale now win : ℚ) (nCh ch : ℕ) (buf : List (ℚ × List ℚ)) (oldRail : ℚ) :
    (frameChannel core f1 s1 scale now win nCh ch buf oldRail).rms =
        (frameChannel core f2 s2 scale now win nCh ch buf oldRail).rms ∧
      (frameChannel core f1 s1 scale now win nCh ch buf oldRail).railPct =
        (frameChannel core f2 s2 scale now win nCh ch buf oldRail).railPct ∧
      (frameChannel core f1 s1 scale now win nCh ch buf oldRail).variance =
        (frameChannel core f2 s2 scale now win nCh ch buf oldRail).variance ∧
      (frameChannel core f1 s1 scale now win nCh ch buf oldRail).newRail =
        (frameChannel core f2 s2 scale now win nCh ch buf oldRail).newRail :=
  ⟨rfl, rfl, rfl, rfl⟩

/-- C3: `init_board` tries the 16-channel configuration first; when that
attempt succeeds the result is a success record and is independent of
the outcome of the 8-channel configuration (it is never attempted); when
the first fails and the second succeeds the result is a success record;
when both fail the returned (not raised) record has status "error" and
its message contains both underlying error texts. -/
theorem connect_fallback (prep prep2 : BoardId → Except String Unit) (e1 e2 : String) :
    (prep .cytonDaisy = .ok () → prep2 .cytonDaisy = .ok () →
      (init_board true prep).status = "success" ∧
        init_board true prep = init_board true prep2) ∧
      (prep .cytonDaisy = .error e1 → prep .cyton = .ok () →
        (init_board true prep).status = "success") ∧
      (prep .cytonDaisy = .error e1 → prep .cyton = .error e2 →
        (init_board true prep).status = "error" ∧
          (∃ a b : String, (init_board true prep).message = a ++ e1 ++ b) ∧
          ∃ a b : String, (init_board true prep).message = a ++ e2 ++ b) := by
  refine ⟨fun h1 h2 => ?_, fun h1 h2 => ?_, fun h1 h2 => ?_⟩
  · constructor <;> simp [init_board, h1, h2]
  · simp [init_board, h1, h2]
  · refine ⟨by simp [init_board, h1, h2], ⟨"Could not connect to either board type: ",
      ", " ++ e2, by simp [init_board, h1, h2, String.append_assoc]⟩,
      ⟨"Could not connect to either board type: " ++ e1 ++ ", ", "", ?_⟩⟩
    simp [init_board, h1, h2, String.append_assoc, String.append_empty]

/-- Witness for C3: with a stub in which both configurations fail with
messages "E1" and "E2", the result has status "error"; with a stub whose
first configuration succeeds, the result has status "success". -/
theorem connect_fallback_witness :
    (init_board true fun _ => Except.error "boom").status = "error" ∧
      (init_board true fun _ => Except.ok ()).status = "success" := by
  have hfail := (connect_fallback (fun _ => Except.error "boom")
    (fun _ => Except.ok ()) "boom" "boom").2.2 rfl rfl
  have hok := (connect_fallback (fun _ => Except.ok ())
    (fun _ => Except.ok ()) "" "").1 rfl rfl
  exact ⟨hfail.1, hok.1⟩

/-- C7: on fewer than `fs / 2` samples (integer division),
`calculate_fft` returns, without error, a frequency sequence and a
magnitude sequence that are both zero-filled and both of length
`fs / 2`, for every choice of the numpy spectrum pipeline. -/
theorem fft_zero_spectrum (spectrum : List ℚ → List ℚ × List ℚ) (fs : ℕ)
    (data : List ℚ) (h : data.length < fs / 2) :
    calculate_fft spectrum fs data =
        (List.replicate (fs / 2) 0, List.replicate (fs / 2) 0) ∧
      (calculate_fft spectrum fs data).1.length = fs / 2 ∧
      (calculate_fft spectrum fs data).2.length = fs / 2 ∧
      (∀ x ∈ (calculate_fft spectrum fs data).1, x = 0) ∧
      ∀ x ∈ (calculate_fft spectrum fs data).2, x = 0 := by
  refine ⟨by simp [calculate_fft, h], ?_, ?_, ?_, ?_⟩ <;>
    simp [calculate_fft, h]

/-- Witness for C7: the empty input with the nominal sample rate 250
yields the all-zero spectrum of length 125. -/
theorem fft_zero_spectrum_witness :
    calculate_fft (fun _ => ([], [])) 250 [] =
      (List.replicate 125 0, List.replicate 125 0) :=
  (fft_zero_spectrum (fun _ => ([], [])) 250 [] (by decide)).1

/-- C8: per frame and channel, whenever the frame saw at least one
sample, the decayed rail-percentage is updated by
`new = 0.7 * old + 0.3 * current` with `current = 100 * count / total`;
in particular one frame whose window is fully railed
(`current = 100`), starting from a prior value of 0, yields exactly 30. -/
theorem rail_decay_update (old : ℚ) (count total t : ℕ) :
    (0 < total → updateRail old count total =
      7 / 10 * old + 3 / 10 * (100 * count / total)) ∧
    (0 < t → updateRail 0 t t = 30) := by
  constructor
  · intro h
    simp [updateRail, railCurrent, h]
  · intro h
    have ht : (t : ℚ) ≠ 0 := Nat.cast_ne_zero.2 h.ne'
    rw [updateRail, if_pos h, railCurrent, mul_div_assoc, div_self ht]
    ring

/-- Witness for C8: `updateRail 0 1 1 = 30` (one fully railed frame from
prior value 0) and `updateRail 2 1 2 = 7/10 * 2 + 3/10 * (100 * 1 / 2)`. -/
theorem rail_decay_update_witness :
    updateRail 0 1 1 = 30 ∧
      updateRail 2 1 2 = 7 / 10 * 2 + 3 / 10 * (100 * 1 / 2) := by
  refine ⟨(rail_decay_update 0 1 1 1).2 (by decide), ?_⟩
  have h := (rail_decay_update 2 1 2 1).1 (by decide)
  rw [h]
  norm_num

/-- Helper for C9: a single decayed update keeps the rail-percentage in
`[0, 100]` when the raw count is at most the total. -/
theorem updateRail_mem (old : ℚ) (count total : ℕ) (h0 : 0 ≤ old) (h1 : old ≤ 100)
    (hct : count ≤ total) :
    0 ≤ updateRail old count total ∧ updateRail old count total ≤ 100 := by
  rw [updateRail]
  by_cases hpos : 0 < total
  · rw [if_pos hpos]
    have htQ : (0 : ℚ) < total := by exact_mod_cast hpos
    have hcQ : (count : ℚ) ≤ total := by exact_mod_cast hct
    have hcur0 : 0 ≤ railCurrent count total := by
      unfold railCurrent
      positivity
    have hcur1 : railCurrent count total ≤ 100 := by
      rw [railCurrent, div_le_iff₀ htQ]
      nlinarith
    constructor <;> nlinarith
  · rw [if_neg hpos]
    exact ⟨h0, h1⟩

/-- Helper for C9: folding decayed updates over any frame sequence keeps
the rail-percentage in `[0, 100]` from any starting value in `[0, 100]`. -/
theorem railFold_mem (scale : ℚ) (frames : List (List ℚ)) :
    ∀ x : ℚ, 0 ≤ x → x ≤ 100 →
      0 ≤ frames.foldl
          (fun old values => updateRail old (railCount scale values) values.length) x ∧
        frames.foldl
          (fun old values => updateRail old (railCount scale values) values.length) x ≤ 100 := by
  induction frames with
  | nil => exact fun x h0 h1 => ⟨h0, h1⟩
  | cons v vs ih =>
    intro x h0 h1
    have hstep := updateRail_mem x (railCount scale v) v.length h0 h1
      (List.length_filter_le _ _)
    exact ih _ hstep.1 hstep.2

/-- C9: for every channel, the decayed rail-percentage stays in
`[0, 100]` over every sequence of frames: it starts at 0, each frame's
raw railed ratio lies in `[0, 100]` (the railed count never exceeds the
total), and the decayed update preserves the interval. -/
theorem rail_percentage_invariant (scale : ℚ) (frames : List (List ℚ)) :
    0 ≤ railAfter scale frames ∧ railAfter scale frames ≤ 100 :=
  railFold_mem scale frames 0 le_rfl (by norm_num)

/-- Helper for C5: the mean of an all-zero window is zero. -/
theorem meanQ_replicate_zero (n : ℕ) : meanQ (List.replicate n (0 : ℚ)) = 0 := by
  simp [meanQ]

/-- Helper for C5: the mean square of an all-zero window is zero. -/
theorem meanSq_replicate_zero (n : ℕ) : meanSq (List.replicate n (0 : ℚ)) = 0 := by
  simp [meanSq, meanQ]

/-- Helper for C5: the population variance of an all-zero window is zero. -/
theorem varQ_replicate_zero (n : ℕ) : varQ (List.replicate n (0 : ℚ)) = 0 := by
  simp [varQ, meanQ]

/-- C5: `analyze_signal` returns the zero triple on every window of fewer
than 10 samples, and on every constant-zero window of length at least 10
it returns RMS = 0, rail-percentage = 0, and variance = 0 (the vertical
scale being nonnegative, as every configured scale is). -/
theorem quality_zero_window (scale : ℚ) (data : List ℚ) (n : ℕ) :
    (data.length < 10 → analyze_signal scale data = (0, 0, 0)) ∧
      (0 ≤ scale → 10 ≤ n → analyze_signal scale (List.replicate n 0) = (0, 0, 0)) := by
  constructor
  · intro h
    rw [analyze_signal, if_pos h]
  · intro hscale hn
    have hlen : ¬ (List.replicate n (0 : ℚ)).length < 10 := by simp; omega
    have hc : ¬ scale * (95 / 100) < |(0 : ℚ)| := by
      simp only [abs_zero, not_lt]
      positivity
    simp [analyze_signal, hlen, List.filter_replicate, hc, meanSq_replicate_zero,
      varQ_replicate_zero]
    intro _ _
    left
    intro hneg
    exact absurd hneg (by simpa using hc)

/-- Witness for C5: the empty window and the all-zero window of length
10 (with the default vertical scale 200) both yield the zero triple. -/
theorem quality_zero_window_witness :
    analyze_signal 200 ([] : List ℚ) = (0, 0, 0) ∧
      analyze_signal 200 (List.replicate 10 0) = (0, 0, 0) :=
  ⟨(quality_zero_window 200 [] 10).1 (by simp),
   (quality_zero_window 200 [] 10).2 (by norm_num) (by norm_num)⟩

/-- C6: for windows of length at least 10, `analyze_signal`'s
rail-percentage equals 100 · #railed / length, and when every value's
absolute value strictly exceeds 0.95 · scale it equals exactly 100. -/
theorem quality_rail_ratio (scale : ℚ) (data : List ℚ) (h10 : 10 ≤ data.length) :
    (analyze_signal scale data).2.1 = 100 * (railCount scale data : ℚ) / data.length ∧
      ((∀ x ∈ data, scale * (95 / 100) < |x|) → (analyze_signal scale data).2.1 = 100) := by
  have hlen : ¬ data.length < 10 := by omega
  have hpos : 0 < data.length := by omega
  constructor
  · simp [analyze_signal, hlen, hpos, railCount]
  · intro hall
    have hfe : data.filter (fun x => decide (scale * (95 / 100) < |x|)) = data :=
      List.filter_eq_self.2 fun a ha => decide_eq_true (hall a ha)
    have hne : (data.length : ℚ) ≠ 0 := Nat.cast_ne_zero.2 (by omega)
    simp [analyze_signal, hlen, hpos, railCount, hfe, mul_div_assoc, div_self hne]

/-- Witness for C6: a window of ten samples of value 200 at vertical
scale 200 (every |value| = 200 > 190) has rail-percentage exactly 100. -/
theorem quality_rail_ratio_witness :
    (analyze_signal 200 (List.replicate 10 (200 : ℚ))).2.1 = 100 := by
  have h := quality_rail_ratio 200 (List.replicate 10 (200 : ℚ)) (by simp)
  refine h.2 fun x hx => ?_
  rw [List.eq_of_mem_replicate hx]
  norm_num

/-- C10: a delimited line whose fields are a timestamp, 16 parsed
channel values and arbitrary further fields decodes — in the shared
fallback, in the CSV replay reader, and in the stdin reader (when JSON
parsing fails) — to the Sample whose value sequence is exactly the 16
values parsed from fields 2 through 17, the further fields ignored. -/
theorem row_values_exact (now t : ℚ) (ts : String) (vs rest : List String) (ws : List ℚ)
    (hlen : vs.length = 16) (hts : parseNum? ts = some t)
    (hvs : vs.mapM parseNum? = some ws) :
    decodeFields (ts :: (vs ++ rest)) = some (t, ws) ∧
      ∀ line : String, splitComma line = ts :: (vs ++ rest) →
        decodeCsvLine line = some (t, ws) ∧
          (jsonParse? line = none → decodeStdinLine now line = some (t, .row ws)) := by
  have hfields : decodeFields (ts :: (vs ++ rest)) = some (t, ws) := by
    have hlen17 : 17 ≤ (ts :: (vs ++ rest)).length := by
      simp only [List.length_cons, List.length_append, hlen]
      omega
    have hdrop : ((ts :: (vs ++ rest)).drop 1).take 16 = vs := by
      simp only [List.drop_succ_cons, List.drop_zero]
      rw [← hlen, List.take_left]
    rw [decodeFields, if_pos hlen17, hdrop]
    have hget : (ts :: (vs ++ rest)).getD 0 "" = ts := rfl
    rw [hget, hts, hvs]
  refine ⟨hfields, fun line hsplit => ?_⟩
  have hcsv : decodeCsvLine line = some (t, ws) := by
    rw [decodeCsvLine, hsplit, hfields]
  refine ⟨hcsv, fun hjson => ?_⟩
  rw [decodeStdinLine, hjson, hcsv]
  rfl

/-- Witness for C10: the 18-field line `1.5,1,...,16,99` decodes to
timestamp 3/2 and exactly the channel values 1..16, ignoring the 18th
field, in both readers. -/
theorem row_values_exact_witness :
    decodeCsvLine wideRowLine =
        some (3 / 2, [1, 2, 3, 4, 5, 6, 7, 8, 9, 10, 11, 12, 13, 14, 15, 16]) ∧
      decodeStdinLine 0 wideRowLine =
        some (3 / 2, .row [1, 2, 3, 4, 5, 6, 7, 8, 9, 10, 11, 12, 13, 14, 15, 16]) := by
  have hts : parseNum? "1.5" = some (3 / 2 : ℚ) := by
    have h : parseNum? "1.5" = some ((1 : ℚ) * (1 + 5 / 10 ^ 1)) := rfl
    rw [h]
    norm_num
  have hvs : ["1", "2", "3", "4", "5", "6", "7", "8", "9", "10", "11", "12", "13",
      "14", "15", "16"].mapM parseNum? =
      some [(1 : ℚ), 2, 3, 4, 5, 6, 7, 8, 9, 10, 11, 12, 13, 14, 15, 16] := by
    have h : ["1", "2", "3", "4", "5", "6", "7", "8", "9", "10", "11", "12", "13",
        "14", "15", "16"].mapM parseNum? =
        some [(1 : ℚ) * (1 + 0 / 10 ^ 0), (1 : ℚ) * (2 + 0 / 10 ^ 0),
          (1 : ℚ) * (3 + 0 / 10 ^ 0), (1 : ℚ) * (4 + 0 / 10 ^ 0),
          (1 : ℚ) * (5 + 0 / 10 ^ 0), (1 : ℚ) * (6 + 0 / 10 ^ 0),
          (1 : ℚ) * (7 + 0 / 10 ^ 0), (1 : ℚ) * (8 + 0 / 10 ^ 0),
          (1 : ℚ) * (9 + 0 / 10 ^ 0), (1 : ℚ) * (10 + 0 / 10 ^ 0),
          (1 : ℚ) * (11 + 0 / 10 ^ 0), (1 : ℚ) * (12 + 0 / 10 ^ 0),
          (1 : ℚ) * (13 + 0 / 10 ^ 0), (1 : ℚ) * (14 + 0 / 10 ^ 0),
          (1 : ℚ) * (15 + 0 / 10 ^ 0), (1 : ℚ) * (16 + 0 / 10 ^ 0)] := rfl
    rw [h]
    norm_num
  have h := row_values_exact 0 (3 / 2) "1.5"
    ["1", "2", "3", "4", "5", "6", "7", "8", "9", "10", "11", "12", "13", "14", "15", "16"]
    ["99"] [1, 2, 3, 4, 5, 6, 7, 8, 9, 10, 11, 12, 13, 14, 15, 16] rfl hts hvs
  have h2 := h.2 wideRowLine rfl
  exact ⟨h2.1, h2.2 rfl⟩

/-- C4 (counterexample): a line of 17 delimited fields that fails JSON
parsing is nonetheless discarded when its fields do not parse as
numbers, so failing structured parsing and splitting into at least 17
delimited fields does not suffice for a Sample to be appended. -/
theorem ingest_17field_cex :
    jsonParse? badRowLine = none ∧ 17 ≤ (splitComma badRowLine).length ∧
      decodeStdinLine 0 badRowLine = none :=
  ⟨rfl, by decide, rfl⟩

/-- C4 (amended): a line that parses as JSON is appended as one Sample
(stamped with the arrival time); a line that fails JSON parsing but
decodes as a delimited row — at least 17 fields whose first 17 all parse
as numbers — is appended as one Sample; any other line is discarded with
no Sample appended and no error; feeding the three test lines appends
exactly 2 Samples. -/
theorem ingest_line_dispatch (now t : ℚ) (line : String) (v : Json) (vs : List ℚ) :
    (jsonParse? line = some v → decodeStdinLine now line = some (now, .json v)) ∧
      (jsonParse? line = none → decodeCsvLine line = some (t, vs) →
        decodeStdinLine now line = some (t, .row vs)) ∧
      (jsonParse? line = none → decodeCsvLine line = none →
        decodeStdinLine now line = none) ∧
      (ingestLines now [jsonTestLine, rowTestLine, "garbage"]).length = 2 := by
  refine ⟨fun hj => ?_, fun hj hc => ?_, fun hj hc => ?_, ?_⟩
  · rw [decodeStdinLine, hj]
  · rw [decodeStdinLine, hj, hc]
    rfl
  · rw [decodeStdinLine, hj, hc]
    rfl
  · rfl

/-- Witness for C4 (amended): the structured test line is appended as a
JSON Sample, and the spec's three-line feed appends exactly 2 Samples. -/
theorem ingest_line_dispatch_witness :
    decodeStdinLine 0 jsonTestLine =
        some (0, .json (.obj [("ch", .arr [.num 1, .num 2])])) ∧
      (ingestLines 0 [jsonTestLine, rowTestLine, "garbage"]).length = 2 := by
  have hj : jsonParse? jsonTestLine =
      some (.obj [("ch", .arr [.num ((1 : ℚ) * (1 + 0 / 10 ^ 0)),
        .num ((1 : ℚ) * (2 + 0 / 10 ^ 0))])]) := rfl
  have e1 : (1 : ℚ) * (1 + 0 / 10 ^ 0) = 1 := by norm_num
  have e2 : (1 : ℚ) * (2 + 0 / 10 ^ 0) = 2 := by norm_num
  rw [e1, e2] at hj
  have h := ingest_line_dispatch 0 0 jsonTestLine
    (.obj [("ch", .arr [.num 1, .num 2])]) []
  exact ⟨h.1 hj, h.2.2.2⟩
